import Mathlib

/-!
# Conversation overlay controller (`html/script.js`)

A shallow embedding of the overlay script.  The module globals
(`conversationOpen`, `isTyping`), the parts of the DOM the script reads or
writes, the requests handed to `fetch`, the console and the two callback queues
of the runtime (timers, pending `fetch` responses) are the fields of one record,
`State`; every function of the script is a function `State → State`.

Conventions of the embedding:

* JavaScript strings are Lean strings (sequences of Unicode scalar values);
  the functions of the script receive strings, as the inbound protocol says.
* `JSON.stringify(obj)` is kept as the object that is serialised (`Json`).
* `messagesContainer.scrollTop = scrollHeight` is layout only and is left out.
* The Unicode case table that `toUpperCase` consults outside ASCII belongs to the
  engine; it is a parameter (`unicodeUpper`) of every definition that reaches
  `openConversation`, and the theorems hold for every such table.
* The page markup is not part of the sources: the only elements with id
  `typing-indicator` are the ones `setTyping` creates.
-/

namespace AiNpcs

/-! ## Strings -/

/-- Code points that `String.prototype.trim` strips: the ECMAScript `WhiteSpace`
and `LineTerminator` productions. -/
def isWhiteSpace (c : Char) : Bool :=
  decide (c.toNat ∈ [0x9, 0xA, 0xB, 0xC, 0xD, 0x20, 0xA0, 0x1680,
    0x2000, 0x2001, 0x2002, 0x2003, 0x2004, 0x2005, 0x2006, 0x2007, 0x2008, 0x2009, 0x200A,
    0x2028, 0x2029, 0x202F, 0x205F, 0x3000, 0xFEFF])

/-- The method `String.prototype.trim`: white space removed from both ends. -/
def trim (s : String) : String :=
  ⟨((s.data.dropWhile isWhiteSpace).reverse.dropWhile isWhiteSpace).reverse⟩

/-- Replace the first occurrence of the character `p` by `r`. -/
def replaceFirstChar (p r : Char) : List Char → List Char
  | [] => []
  | c :: cs => if c = p then r :: cs else c :: replaceFirstChar p r cs

/-- The call `s.replace('_', ' ')`: with a string pattern, `replace` substitutes
the first occurrence only. -/
def replaceUnderscore (s : String) : String :=
  ⟨replaceFirstChar '_' ' ' s.data⟩

/-- The method `String.prototype.toUpperCase`: every code point is replaced by
its upper-case mapping, which may be several code points (`ß` gives `SS`).  In
the ASCII range the mapping is written out: `a`–`z` go to `A`–`Z` and the rest
is kept.  For the other code points it is the Unicode case table of the engine,
which is not in the sources: the parameter `unicodeUpper`. -/
def toUpperCase (unicodeUpper : Char → List Char) (s : String) : String :=
  ⟨s.data.flatMap (fun c => if c.toNat < 128 then [c.toUpper] else unicodeUpper c)⟩

/-! ## Data model -/

/-- A child of `messagesContainer`: a message bubble built by `addMessage`
(`className`, the text of the sender line, the text of the body), or the typing
indicator built by `setTyping` (class and id `typing-indicator`). -/
inductive Entry where
  | bubble (className senderName text : String)
  | typingIndicator (text : String)
  deriving DecidableEq

/-- The object given to `JSON.stringify`: a flat object with string fields. -/
structure Json where
  fields : List (String × String)
  deriving DecidableEq

/-- One call of `fetch`. -/
structure Request where
  url : String
  method : String
  contentType : String
  body : Json
  deriving DecidableEq

/-- One line written to the console. -/
inductive ConsoleLine where
  | log (text : String)
  | error (text : String)
  deriving DecidableEq

/-- Everything the script reads or writes. -/
structure State where
  /-- The global `conversationOpen`. -/
  conversationOpen : Bool
  /-- The global `isTyping`. -/
  isTyping : Bool
  /-- The value of `npcNameElement.textContent`. -/
  npcNameText : String
  /-- The value of `npcRoleElement.textContent`. -/
  npcRoleText : String
  /-- The children of `messagesContainer`, in document order. -/
  messages : List Entry
  /-- Whether `conversationContainer.classList` holds `hidden`. -/
  hidden : Bool
  /-- The value of `messageInput.value`. -/
  inputValue : String
  /-- The value of `sendButton.disabled`. -/
  sendDisabled : Bool
  /-- Whether `document.activeElement === messageInput`. -/
  inputFocused : Bool
  /-- The requests given to `fetch`, oldest first. -/
  outbox : List Request
  /-- The console output, oldest first. -/
  console : List ConsoleLine
  /-- Timers set by `openConversation` that have not fired yet. -/
  focusTimers : Nat
  /-- Requests to `/sendMessage` whose response callback has not run yet. -/
  pendingSends : Nat
  deriving DecidableEq

/-! ## The functions of the script -/

/-- The function `GetParentResourceName`. -/
def GetParentResourceName : String := "ai-npcs"

/-- A `fetch` of `https://<resource>/<endpoint>` with method `POST`, the JSON
content type and the given body. -/
def post (endpoint : String) (body : Json) : Request :=
  { url := "https://" ++ GetParentResourceName ++ "/" ++ endpoint
    method := "POST"
    contentType := "application/json"
    body := body }

/-- Whether an entry is the element with id `typing-indicator`. -/
def Entry.isTypingIndicator : Entry → Bool
  | .typingIndicator _ => true
  | .bubble _ _ _ => false

/-- The lookup `document.getElementById('typing-indicator')` followed by
`remove()`: the first element with that id, if any, leaves the log. -/
def removeTypingIndicator : List Entry → List Entry
  | [] => []
  | e :: es => if e.isTypingIndicator then es else e :: removeTypingIndicator es

/-- The function `openConversation(npcName, npcRole)`. -/
def openConversation (unicodeUpper : Char → List Char) (npcName npcRole : String)
    (s : State) : State :=
  { s with
    conversationOpen := true
    npcNameText := npcName
    npcRoleText := toUpperCase unicodeUpper (replaceUnderscore npcRole)
    messages := []
    hidden := false
    focusTimers := s.focusTimers + 1
    console := s.console ++ [.log ("[AI NPCs] Opened conversation with " ++ npcName)] }

/-- The callback of the timer set by `openConversation`: `messageInput.focus()`. -/
def focusTimerFired (s : State) : State :=
  { s with inputFocused := true, focusTimers := s.focusTimers - 1 }

/-- The function `closeConversation()`. -/
def closeConversation (s : State) : State :=
  { s with
    conversationOpen := false
    hidden := true
    inputValue := ""
    outbox := s.outbox ++ [post "closeUI" ⟨[]⟩]
    console := s.console ++ [.log "[AI NPCs] Closed conversation UI"] }

/-- The function `addMessage(text, sender, senderName)`. -/
def addMessage (text sender senderName : String) (s : State) : State :=
  { s with messages := s.messages ++ [.bubble ("message " ++ sender) senderName text] }

/-- The function `setTyping(typing)`. -/
def setTyping (typing : Bool) (s : State) : State :=
  let s := { s with isTyping := typing, sendDisabled := typing }
  if typing then
    { s with messages := s.messages ++ [.typingIndicator (s.npcNameText ++ " is thinking...")] }
  else
    { s with messages := removeTypingIndicator s.messages }

/-- The function `sendMessage()`, up to and including the call of `fetch`. -/
def sendMessage (s : State) : State :=
  if s.isTyping then s
  else
    let message := trim s.inputValue
    if message = "" then s
    else
      let s := addMessage message "player" "You" s
      let s := { s with inputValue := "" }
      let s := setTyping true s
      { s with
        outbox := s.outbox ++ [post "sendMessage" ⟨[("message", message)]⟩]
        pendingSends := s.pendingSends + 1 }

/-- The callback `result => { ... }` chained to the `fetch` of `sendMessage`,
run with the text of the response. -/
def sendMessageResult (result : String) (s : State) : State :=
  if result ≠ "ok" then
    setTyping false { s with console := s.console ++ [.error "[AI NPCs] Failed to send message"] }
  else s

/-- The function `receiveMessage(message, npcName)`. -/
def receiveMessage (message npcName : String) (s : State) : State :=
  addMessage message "npc" npcName (setTyping false s)

/-- The function `endConversation()`. -/
def endConversation (s : State) : State :=
  closeConversation { s with outbox := s.outbox ++ [post "endConversation" ⟨[]⟩] }

/-! ## Event listeners -/

/-- The listener for `keypress` on `messageInput`; the second component tells
whether `preventDefault` was called. -/
def onInputKeypress (key : String) (shiftKey : Bool) (s : State) : State × Bool :=
  if key = "Enter" ∧ shiftKey = false then (sendMessage s, true) else (s, false)

/-- The listener for `keydown` on `document`; the second component tells
whether `preventDefault` was called. -/
def onKeydown (key : String) (s : State) : State × Bool :=
  if s.conversationOpen then
    if s.inputFocused then (s, false)
    else
      let s := if key = "Escape" then closeConversation s else s
      (s, true)
  else (s, false)

/-- The payload `event.data` of a message from the host. -/
structure MessageData where
  action : String
  npcName : String
  npcRole : String
  message : String
  deriving DecidableEq

/-- The listener for `message` on `window`. -/
def onMessage (unicodeUpper : Char → List Char) (data : MessageData) (s : State) : State :=
  if data.action = "openConversation" then
    openConversation unicodeUpper data.npcName data.npcRole s
  else if data.action = "closeConversation" then closeConversation s
  else if data.action = "receiveMessage" then receiveMessage data.message data.npcName s
  else s

/-! ## The overlay as a transition system -/

/-- What can happen to the overlay. -/
inductive Event where
  /-- The host posts a message to the window. -/
  | message (data : MessageData)
  /-- The user edits the text field, leaving `text` in it. -/
  | typeInput (text : String)
  /-- A click on the send button. -/
  | clickSend
  /-- A click on the end-conversation button. -/
  | clickEnd
  /-- A click on the close button. -/
  | clickClose
  /-- A `keypress` in the text field. -/
  | inputKeypress (key : String) (shiftKey : Bool)
  /-- A `keydown` anywhere in the document. -/
  | keydown (key : String)
  /-- The user moves the focus onto (`true`) or off (`false`) the text field. -/
  | focusChange (onInput : Bool)
  /-- A timer set by `openConversation` fires. -/
  | focusTimer
  /-- The response to a `/sendMessage` request arrives with text `result`. -/
  | sendResponse (result : String)
  deriving DecidableEq

/-- The effect of one event. -/
def step (unicodeUpper : Char → List Char) (s : State) : Event → State
  | .message data => onMessage unicodeUpper data s
  | .typeInput text => { s with inputValue := text }
  | .clickSend => sendMessage s
  | .clickEnd => endConversation s
  | .clickClose => closeConversation s
  | .inputKeypress key shiftKey => (onInputKeypress key shiftKey s).1
  | .keydown key => (onKeydown key s).1
  | .focusChange onInput => { s with inputFocused := onInput }
  | .focusTimer => focusTimerFired s
  | .sendResponse result => sendMessageResult result { s with pendingSends := s.pendingSends - 1 }

/-- An event can occur in a state: a callback runs only when it is queued; the
host and the user are unconstrained. -/
def Enabled (s : State) : Event → Prop
  | .focusTimer => 0 < s.focusTimers
  | .sendResponse _ => 0 < s.pendingSends
  | _ => True

instance (s : State) (e : Event) : Decidable (Enabled s e) := by
  cases e <;> unfold Enabled <;> infer_instance

/-- The state when the script has been loaded: the globals have their initial
values, nothing has been sent or logged, no callback is queued and the log is
empty; the rest of the page comes from markup that is not in the sources. -/
def Initial (s : State) : Prop :=
  s.conversationOpen = false ∧ s.isTyping = false ∧ s.messages = [] ∧ s.outbox = [] ∧
    s.console = [] ∧ s.focusTimers = 0 ∧ s.pendingSends = 0

instance (s : State) : Decidable (Initial s) := by
  unfold Initial; infer_instance

/-- An initial state with a hidden panel, empty headers and an empty field. -/
def initialState : State :=
  { conversationOpen := false, isTyping := false, npcNameText := "", npcRoleText := ""
    messages := [], hidden := true, inputValue := "", sendDisabled := false
    inputFocused := false, outbox := [], console := [], focusTimers := 0, pendingSends := 0 }

/-- The states the overlay can be in. -/
inductive Reachable (unicodeUpper : Char → List Char) : State → Prop where
  | init {s : State} : Initial s → Reachable unicodeUpper s
  | step {s : State} (e : Event) : Reachable unicodeUpper s → Enabled s e →
      Reachable unicodeUpper (step unicodeUpper s e)

/-- Run a list of events, oldest first. -/
def run (unicodeUpper : Char → List Char) (s : State) (es : List Event) : State :=
  es.foldl (step unicodeUpper) s

/-- The number of typing-indicator entries in a log. -/
def indicatorCount (log : List Entry) : Nat := log.countP Entry.isTypingIndicator

/-- The message bubbles of a log, the typing indicator left out. -/
def bubbles (log : List Entry) : List Entry := log.filter (fun e => !e.isTypingIndicator)

/-- The log holds at most one typing indicator, and none when `isTyping` is
false. -/
def Inv (s : State) : Prop :=
  indicatorCount s.messages ≤ 1 ∧ (s.isTyping = false → indicatorCount s.messages = 0)

/-- An event that ends the wait for a reply: a `receiveMessage` notification or
a send response other than `ok`. -/
def Event.clearsTyping : Event → Bool
  | .message data => decide (data.action = "receiveMessage")
  | .sendResponse result => decide (result ≠ "ok")
  | _ => false

/-- Every event of a list can occur when its turn comes. -/
def Admissible (unicodeUpper : Char → List Char) : State → List Event → Prop
  | _, [] => True
  | s, e :: es => Enabled s e ∧ Admissible unicodeUpper (step unicodeUpper s e) es

instance decAdmissible (unicodeUpper : Char → List Char) :
    (s : State) → (es : List Event) → Decidable (Admissible unicodeUpper s es)
  | _, [] => isTrue trivial
  | s, e :: es =>
    have := decAdmissible unicodeUpper (step unicodeUpper s e) es
    inferInstanceAs
      (Decidable (Enabled s e ∧ Admissible unicodeUpper (step unicodeUpper s e) es))

/-- The notification `{ action: "openConversation", npcName, npcRole }`. -/
def openEvent (npcName npcRole : String) : Event :=
  .message { action := "openConversation", npcName := npcName, npcRole := npcRole, message := "" }

/-- The notification `{ action: "receiveMessage", message, npcName }`. -/
def receiveEvent (message npcName : String) : Event :=
  .message { action := "receiveMessage", npcName := npcName, npcRole := "", message := message }

/-- The role header as the specification words it: every underscore replaced
by a space, then upper-cased. -/
def specRoleText (unicodeUpper : Char → List Char) (npcRole : String) : String :=
  toUpperCase unicodeUpper ⟨npcRole.data.map (fun c => if c = '_' then ' ' else c)⟩

/-- A case table that keeps every code point outside ASCII; it serves to run
examples whose text is ASCII. -/
def keepUpper : Char → List Char := fun c => [c]

/-- A session in which the player has sent `hello` and waits for the reply. -/
def awaitingReply : State :=
  run keepUpper initialState [openEvent "Bob" "shop_keeper", .typeInput "hello", .clickSend]

/-- The session `awaitingReply` after the player closed the panel and the host
opened a conversation again, all before any reply. -/
def reopenedWhileTyping (unicodeUpper : Char → List Char) : State :=
  run unicodeUpper initialState
    [openEvent "Bob" "shop_keeper", .typeInput "hello", .clickSend,
      .clickClose, openEvent "Alice" "bar_tender"]


/-! ## Lemmas on the log -/

theorem indicatorCount_append (l₁ l₂ : List Entry) :
    indicatorCount (l₁ ++ l₂) = indicatorCount l₁ + indicatorCount l₂ := by
  simp [indicatorCount]

theorem indicatorCount_removeTypingIndicator (l : List Entry) :
    indicatorCount (removeTypingIndicator l) = indicatorCount l - 1 := by
  induction l with
  | nil => rfl
  | cons e es ih =>
    cases h : e.isTypingIndicator <;>
      simp [removeTypingIndicator, indicatorCount, h] at ih ⊢
    exact ih

theorem bubbles_removeTypingIndicator (l : List Entry) :
    bubbles (removeTypingIndicator l) = bubbles l := by
  induction l with
  | nil => rfl
  | cons e es ih =>
    cases h : e.isTypingIndicator <;>
      simp [removeTypingIndicator, bubbles, h] at ih ⊢
    exact ih

theorem removeTypingIndicator_sublist (l : List Entry) :
    (removeTypingIndicator l).Sublist l := by
  induction l with
  | nil => exact List.Sublist.refl _
  | cons e es ih =>
    cases h : e.isTypingIndicator <;> simp [removeTypingIndicator, h]
    exact ih

/-! ## The invariant of the typing indicator -/

theorem Inv.of_eq {s t : State} (h : Inv s) (hm : t.messages = s.messages)
    (ht : t.isTyping = s.isTyping) : Inv t := by
  unfold Inv at *
  rw [hm, ht]
  exact h

theorem inv_of_initial {s : State} (h : Initial s) : Inv s := by
  obtain ⟨_, _, hm, _⟩ := h
  simp [Inv, hm, indicatorCount]

theorem inv_openConversation (up : Char → List Char) (n r : String) (s : State) :
    Inv (openConversation up n r s) := by
  simp [Inv, openConversation, indicatorCount]

theorem inv_closeConversation {s : State} (h : Inv s) : Inv (closeConversation s) :=
  h.of_eq rfl rfl

theorem inv_endConversation {s : State} (h : Inv s) : Inv (endConversation s) :=
  h.of_eq rfl rfl

theorem inv_setTyping_false {s : State} (h : Inv s) : Inv (setTyping false s) := by
  have h1 := h.1
  have h2 := indicatorCount_removeTypingIndicator s.messages
  have hm : (setTyping false s).messages = removeTypingIndicator s.messages := rfl
  unfold Inv
  rw [hm, h2]
  exact ⟨by omega, fun _ => by omega⟩

theorem inv_sendMessage {s : State} (h : Inv s) : Inv (sendMessage s) := by
  by_cases ht : s.isTyping = true
  · simpa [sendMessage, ht] using h
  · by_cases hm : trim s.inputValue = ""
    · simpa [sendMessage, ht, hm] using h
    · have h0 := h.2 (by simpa using ht)
      simp [Inv, sendMessage, ht, hm, setTyping, addMessage, indicatorCount_append, h0]
      simp [indicatorCount, Entry.isTypingIndicator]

theorem inv_receiveMessage (m n : String) {s : State} (h : Inv s) :
    Inv (receiveMessage m n s) := by
  have h' := inv_setTyping_false h
  have h0 : indicatorCount (setTyping false s).messages = 0 := h'.2 (by simp [setTyping])
  simp [Inv, receiveMessage, addMessage, indicatorCount_append, h0]
  simp [indicatorCount, Entry.isTypingIndicator]

theorem inv_sendMessageResult (result : String) {s : State} (h : Inv s) :
    Inv (sendMessageResult result s) := by
  unfold sendMessageResult
  split
  · exact inv_setTyping_false (h.of_eq rfl rfl)
  · exact h

theorem inv_onMessage (up : Char → List Char) (data : MessageData) {s : State} (h : Inv s) :
    Inv (onMessage up data s) := by
  unfold onMessage
  split
  · exact inv_openConversation _ _ _ _
  · split
    · exact inv_closeConversation h
    · split
      · exact inv_receiveMessage _ _ h
      · exact h

theorem inv_step (up : Char → List Char) (e : Event) {s : State} (h : Inv s) :
    Inv (step up s e) := by
  cases e with
  | message data => exact inv_onMessage up data h
  | typeInput text => exact h.of_eq rfl rfl
  | clickSend => exact inv_sendMessage h
  | clickEnd => exact inv_endConversation h
  | clickClose => exact inv_closeConversation h
  | inputKeypress key shiftKey =>
    simp only [step, onInputKeypress]
    split
    · exact inv_sendMessage h
    · exact h
  | keydown key =>
    simp only [step, onKeydown]
    split
    · split
      · exact h
      · dsimp only
        split
        · exact inv_closeConversation h
        · exact h
    · exact h
  | focusChange onInput => exact h.of_eq rfl rfl
  | focusTimer => exact h.of_eq rfl rfl
  | sendResponse result => exact inv_sendMessageResult result (h.of_eq rfl rfl)

theorem inv_of_reachable {up : Char → List Char} {s : State} (h : Reachable up s) : Inv s := by
  induction h with
  | init h0 => exact inv_of_initial h0
  | step e _ _ ih => exact inv_step up e ih

theorem reachable_run {up : Char → List Char} {s : State} (es : List Event)
    (h : Reachable up s) (ha : Admissible up s es) : Reachable up (run up s es) := by
  induction es generalizing s with
  | nil => exact h
  | cons e es ih => exact ih (Reachable.step e h ha.1) ha.2

/-! ## The header of the panel -/

/-- C1, evaluated on the code: whatever the case table of the engine, for the
role `black_market_dealer` the name header is the given name, but the role
header is `BLACK MARKET_DEALER`, because only the first underscore is replaced;
replacing every underscore, as the specification words it, gives
`BLACK MARKET DEALER`. -/
theorem openConversation_role_header_first_underscore_only (up : Char → List Char)
    (s : State) :
    (openConversation up "Bob" "black_market_dealer" s).npcNameText = "Bob" ∧
    (openConversation up "Bob" "black_market_dealer" s).npcRoleText = "BLACK MARKET_DEALER" ∧
    specRoleText up "black_market_dealer" = "BLACK MARKET DEALER" ∧
    (openConversation up "Bob" "black_market_dealer" s).npcRoleText ≠
      specRoleText up "black_market_dealer" := by
  have hcode : toUpperCase up (replaceUnderscore "black_market_dealer") =
      "BLACK MARKET_DEALER" := rfl
  have hspec : specRoleText up "black_market_dealer" = "BLACK MARKET DEALER" := rfl
  refine ⟨rfl, hcode, hspec, ?_⟩
  show toUpperCase up (replaceUnderscore "black_market_dealer") ≠
    specRoleText up "black_market_dealer"
  rw [hcode, hspec]
  decide

/-! ## Sending -/

/-- C3: when `isTyping` is true, or the text of the field is empty once
trimmed, `sendMessage` returns the state it was given: log, field, flags,
send button and the list of issued requests are all untouched. -/
theorem sendMessage_noop_when_typing_or_blank (s : State)
    (h : s.isTyping = true ∨ trim s.inputValue = "") : sendMessage s = s := by
  unfold sendMessage
  rcases h with h | h
  · simp [h]
  · simp [h]

theorem sendMessage_noop_when_typing_or_blank_witness :
    (({ initialState with inputValue := " \t " } : State).isTyping = true ∨
      trim ({ initialState with inputValue := " \t " } : State).inputValue = "") ∧
    sendMessage { initialState with inputValue := " \t " } =
      { initialState with inputValue := " \t " } :=
  ⟨Or.inr (by decide),
    sendMessage_noop_when_typing_or_blank { initialState with inputValue := " \t " }
      (Or.inr (by decide))⟩

/-! ## Closing -/

/-- C5: `endConversation` issues one `POST` to `/endConversation` with body
`{}`, then does what `closeConversation` does (which notifies `/closeUI`):
the session is closed, the panel hidden, the field empty, and every field of
the state other than the list of issued requests is what `closeConversation`
yields from the same state. -/
theorem endConversation_posts_then_closes (s : State) :
    (endConversation s).outbox = s.outbox ++
      [{ url := "https://ai-npcs/endConversation", method := "POST",
         contentType := "application/json", body := ⟨[]⟩ },
       { url := "https://ai-npcs/closeUI", method := "POST",
         contentType := "application/json", body := ⟨[]⟩ }] ∧
    (closeConversation s).outbox = s.outbox ++
      [{ url := "https://ai-npcs/closeUI", method := "POST",
         contentType := "application/json", body := ⟨[]⟩ }] ∧
    (endConversation s).conversationOpen = false ∧
    (endConversation s).hidden = true ∧
    (endConversation s).inputValue = "" ∧
    { endConversation s with outbox := (closeConversation s).outbox } = closeConversation s := by
  have h1 : post "endConversation" ⟨[]⟩ =
      { url := "https://ai-npcs/endConversation", method := "POST",
        contentType := "application/json", body := ⟨[]⟩ } := by decide
  have h2 : post "closeUI" ⟨[]⟩ =
      { url := "https://ai-npcs/closeUI", method := "POST",
        contentType := "application/json", body := ⟨[]⟩ } := by decide
  refine ⟨?_, ?_, rfl, rfl, rfl, rfl⟩
  · simp [endConversation, closeConversation, h1, h2]
  · simp [closeConversation, h2]

/-! ## Keys -/

/-- C6: the `keydown` listener of the document.  With no session open, or with
the focus in the text field, it returns the state unchanged and does not call
`preventDefault`.  With a session open and the focus elsewhere it calls
`preventDefault`; on `Escape` it runs `closeConversation`, which issues one
`POST` to `/closeUI` and closes the session; on any other key the state is
unchanged. -/
theorem onKeydown_gated_by_open_and_focus (key : String) (s : State) :
    ((s.conversationOpen = false ∨ s.inputFocused = true) → onKeydown key s = (s, false)) ∧
    (s.conversationOpen = true → s.inputFocused = false →
      (onKeydown key s).2 = true ∧
      (key = "Escape" →
        (onKeydown key s).1 = closeConversation s ∧
        (onKeydown key s).1.outbox = s.outbox ++
          [{ url := "https://ai-npcs/closeUI", method := "POST",
             contentType := "application/json", body := ⟨[]⟩ }] ∧
        (onKeydown key s).1.conversationOpen = false) ∧
      (key ≠ "Escape" → (onKeydown key s).1 = s)) := by
  have h2 : post "closeUI" ⟨[]⟩ =
      { url := "https://ai-npcs/closeUI", method := "POST",
        contentType := "application/json", body := ⟨[]⟩ } := by decide
  refine ⟨?_, ?_⟩
  · rintro (h | h)
    · simp [onKeydown, h]
    · cases ho : s.conversationOpen <;> simp [onKeydown, h, ho]
  · intro ho hf
    refine ⟨by simp [onKeydown, ho, hf], ?_, ?_⟩
    · intro hk
      simp [onKeydown, ho, hf, hk, closeConversation, h2]
    · intro hk
      simp [onKeydown, ho, hf, hk]

theorem onKeydown_gated_by_open_and_focus_witness :
    onKeydown "Escape" { awaitingReply with inputFocused := true } =
      ({ awaitingReply with inputFocused := true }, false) ∧
    onKeydown "Escape" initialState = (initialState, false) ∧
    (onKeydown "Escape" awaitingReply).2 = true ∧
    (onKeydown "Escape" awaitingReply).1 = closeConversation awaitingReply ∧
    (onKeydown "a" awaitingReply).2 = true ∧
    (onKeydown "a" awaitingReply).1 = awaitingReply :=
  ⟨(onKeydown_gated_by_open_and_focus "Escape" { awaitingReply with inputFocused := true }).1
      (Or.inr rfl),
    (onKeydown_gated_by_open_and_focus "Escape" initialState).1 (Or.inl rfl),
    ((onKeydown_gated_by_open_and_focus "Escape" awaitingReply).2 (by decide) (by decide)).1,
    (((onKeydown_gated_by_open_and_focus "Escape" awaitingReply).2
      (by decide) (by decide)).2.1 rfl).1,
    ((onKeydown_gated_by_open_and_focus "a" awaitingReply).2 (by decide) (by decide)).1,
    ((onKeydown_gated_by_open_and_focus "a" awaitingReply).2 (by decide) (by decide)).2.2
      (by decide)⟩

/-! ## Opening -/

/-- C7: from any state, after any sequence of `openConversation` notifications
followed by one more, the log is empty, the session is open and the panel is
shown. -/
theorem log_empty_after_each_open (up : Char → List Char) (s : State)
    (earlier : List (String × String)) (npcName npcRole : String) :
    (run up s (earlier.map (fun p => openEvent p.1 p.2) ++
        [openEvent npcName npcRole])).messages = [] ∧
    (run up s (earlier.map (fun p => openEvent p.1 p.2) ++
        [openEvent npcName npcRole])).conversationOpen = true ∧
    (run up s (earlier.map (fun p => openEvent p.1 p.2) ++
        [openEvent npcName npcRole])).hidden = false := by
  simp [run, List.foldl_append, step, openEvent, onMessage, openConversation]


/-! ## The typing indicator over whole runs -/

/-- C2, evaluated on the code: whatever the case table of the engine, the
state after `openConversation`, a send of `hello`, a click on the close button
and a second `openConversation`, all before the reply, is reachable; in it
`isTyping` is true and the send button disabled, yet the log, emptied by the
second opening, holds no typing indicator, and a further send is dropped.  So
the count of typing indicators is not 1 in every reachable state with
`isTyping` true.  The two places that end the wait (`receiveMessage` and the
response callback) go through `setTyping(false)`, which resets the flag, the
button and the indicator together. -/
theorem indicator_missing_after_reopen (up : Char → List Char) :
    Reachable up (reopenedWhileTyping up) ∧
    (reopenedWhileTyping up).conversationOpen = true ∧
    (reopenedWhileTyping up).isTyping = true ∧
    (reopenedWhileTyping up).sendDisabled = true ∧
    (reopenedWhileTyping up).messages = [] ∧
    indicatorCount (reopenedWhileTyping up).messages = 0 ∧
    sendMessage { reopenedWhileTyping up with inputValue := "again" } =
      { reopenedWhileTyping up with inputValue := "again" } ∧
    (setTyping false (reopenedWhileTyping up)).isTyping = false ∧
    (setTyping false (reopenedWhileTyping up)).sendDisabled = false ∧
    ¬ ∀ s : State, Reachable up s →
      (s.isTyping = true → indicatorCount s.messages = 1) ∧
      (s.isTyping = false → indicatorCount s.messages = 0) := by
  have hr : Reachable up (reopenedWhileTyping up) :=
    reachable_run _ (Reachable.init (by decide))
      ⟨trivial, trivial, trivial, trivial, trivial, trivial⟩
  have ht : (reopenedWhileTyping up).isTyping = true := rfl
  have hm : (reopenedWhileTyping up).messages = [] := rfl
  refine ⟨hr, rfl, ht, rfl, hm, by rw [hm]; rfl, ?_, rfl, rfl, ?_⟩
  · simp [sendMessage, ht]
  · intro h
    have h1 := (h _ hr).1 ht
    rw [hm] at h1
    exact absurd h1 (by decide)

/-- C9: in every reachable state the log holds at most one typing indicator,
and while `isTyping` is true `sendMessage`, whatever the text of the field,
leaves the log as it is. -/
theorem at_most_one_typing_indicator (up : Char → List Char) (s : State)
    (h : Reachable up s) :
    indicatorCount s.messages ≤ 1 ∧
    (s.isTyping = true → ∀ text : String,
      (sendMessage { s with inputValue := text }).messages = s.messages ∧
      indicatorCount (sendMessage { s with inputValue := text }).messages ≤ 1) := by
  have hi := inv_of_reachable h
  refine ⟨hi.1, fun ht text => ?_⟩
  have : sendMessage { s with inputValue := text } = { s with inputValue := text } := by
    simp [sendMessage, ht]
  rw [this]
  exact ⟨rfl, hi.1⟩

theorem at_most_one_typing_indicator_witness :
    Reachable keepUpper awaitingReply ∧ awaitingReply.isTyping = true ∧
    indicatorCount awaitingReply.messages ≤ 1 ∧
    (sendMessage { awaitingReply with inputValue := "again" }).messages =
      awaitingReply.messages :=
  have hr : Reachable keepUpper awaitingReply :=
    reachable_run _ (Reachable.init (by decide)) (by decide)
  ⟨hr, by decide, (at_most_one_typing_indicator keepUpper awaitingReply hr).1,
    ((at_most_one_typing_indicator keepUpper awaitingReply hr).2 (by decide) "again").1⟩


/-! ## A whole exchange -/

/-- C4: from an initial state, for any name `n`, role `r`, reply `m` and text
`t` that is not blank.  After `openConversation(n, r)` the log is empty.  After
`sendMessage` with `t` in the field the log is the player bubble (`trim t`,
sender `You`) followed by the typing indicator, `isTyping` is true, the field
is empty and the only request issued is a `POST` to `/sendMessage` with body
`{ message: trim t }`.  After `receiveMessage(m, n)`, `isTyping` is false and
the log is the player bubble followed by the bubble of `n` with text `m`, with
no typing indicator. -/
theorem open_send_receive_exchange (up : Char → List Char) (s₀ : State)
    (n r t m : String) (h₀ : Initial s₀) (ht : trim t ≠ "") :
    (openConversation up n r s₀).messages = [] ∧
    (sendMessage { openConversation up n r s₀ with inputValue := t }).messages =
      [.bubble "message player" "You" (trim t), .typingIndicator (n ++ " is thinking...")] ∧
    bubbles (sendMessage { openConversation up n r s₀ with inputValue := t }).messages =
      [.bubble "message player" "You" (trim t)] ∧
    (sendMessage { openConversation up n r s₀ with inputValue := t }).isTyping = true ∧
    (sendMessage { openConversation up n r s₀ with inputValue := t }).inputValue = "" ∧
    (sendMessage { openConversation up n r s₀ with inputValue := t }).outbox =
      [{ url := "https://ai-npcs/sendMessage", method := "POST",
         contentType := "application/json", body := ⟨[("message", trim t)]⟩ }] ∧
    (receiveMessage m n
      (sendMessage { openConversation up n r s₀ with inputValue := t })).isTyping = false ∧
    (receiveMessage m n
      (sendMessage { openConversation up n r s₀ with inputValue := t })).messages =
      [.bubble "message player" "You" (trim t), .bubble "message npc" n m] ∧
    indicatorCount (receiveMessage m n
      (sendMessage { openConversation up n r s₀ with inputValue := t })).messages = 0 := by
  obtain ⟨_, hty, _, hout, _⟩ := h₀
  have hp : ("message " ++ "player" : String) = "message player" := by decide
  have hn : ("message " ++ "npc" : String) = "message npc" := by decide
  have hpost : ∀ b : Json, post "sendMessage" b =
      { url := "https://ai-npcs/sendMessage", method := "POST",
        contentType := "application/json", body := b } := by
    intro b
    have hu : "https://" ++ GetParentResourceName ++ "/" ++ "sendMessage" =
        "https://ai-npcs/sendMessage" := by decide
    simp [post, hu]
  simp [sendMessage, openConversation, receiveMessage, setTyping, addMessage, hty, hout, ht,
    hp, hn, hpost, removeTypingIndicator, Entry.isTypingIndicator, bubbles, indicatorCount]

theorem open_send_receive_exchange_witness :
    Initial initialState ∧ trim " hello " ≠ "" ∧
    (receiveMessage "Hi there" "Bob"
      (sendMessage { openConversation keepUpper "Bob" "shop_keeper" initialState with
        inputValue := " hello " })).messages =
      [.bubble "message player" "You" (trim " hello "), .bubble "message npc" "Bob" "Hi there"] :=
  ⟨by decide, by decide,
    (open_send_receive_exchange keepUpper initialState "Bob" "shop_keeper" " hello " "Hi there"
      (by decide) (by decide)).2.2.2.2.2.2.2.1⟩

/-! ## The response to a send -/

/-- C8: in a reachable state with a send awaiting its response, the response
callback run with a text other than `ok` sets `isTyping` to false and removes
the typing indicator from the log: no indicator is left, the bubbles are the
same, nothing is added; `conversationOpen`, the field and the list of issued
requests are unchanged.  Run with `ok` it returns the state unchanged.  Either
way the response is consumed and nothing is sent again. -/
theorem sendMessageResult_clears_typing_unless_ok (up : Char → List Char) (s : State)
    (result : String) (h : Reachable up s) (he : Enabled s (.sendResponse result)) :
    (result ≠ "ok" →
      (sendMessageResult result s).isTyping = false ∧
      (sendMessageResult result s).messages = removeTypingIndicator s.messages ∧
      indicatorCount (sendMessageResult result s).messages = 0 ∧
      bubbles (sendMessageResult result s).messages = bubbles s.messages ∧
      (sendMessageResult result s).messages.Sublist s.messages ∧
      (sendMessageResult result s).conversationOpen = s.conversationOpen ∧
      (sendMessageResult result s).inputValue = s.inputValue ∧
      (sendMessageResult result s).outbox = s.outbox ∧
      (step up s (.sendResponse result)).outbox = s.outbox ∧
      (step up s (.sendResponse result)).messages = removeTypingIndicator s.messages) ∧
    (result = "ok" →
      sendMessageResult result s = s ∧
      step up s (.sendResponse result) = { s with pendingSends := s.pendingSends - 1 }) ∧
    (step up s (.sendResponse result)).pendingSends + 1 = s.pendingSends := by
  have hi := inv_of_reachable h
  have hq : (step up s (.sendResponse result)).pendingSends + 1 = s.pendingSends := by
    have hpos : 0 < s.pendingSends := he
    have : (step up s (.sendResponse result)).pendingSends = s.pendingSends - 1 := by
      by_cases hr : result = "ok" <;> simp [step, sendMessageResult, hr, setTyping]
    omega
  refine ⟨?_, ?_, hq⟩
  · intro hr
    have hm : (sendMessageResult result s).messages = removeTypingIndicator s.messages := by
      simp [sendMessageResult, hr, setTyping]
    have hc := indicatorCount_removeTypingIndicator s.messages
    have h1 := hi.1
    refine ⟨by simp [sendMessageResult, hr, setTyping], hm, ?_, ?_, ?_,
      by simp [sendMessageResult, hr, setTyping], by simp [sendMessageResult, hr, setTyping],
      by simp [sendMessageResult, hr, setTyping],
      by simp [step, sendMessageResult, hr, setTyping],
      by simp [step, sendMessageResult, hr, setTyping]⟩
    · rw [hm, hc]; omega
    · rw [hm, bubbles_removeTypingIndicator]
    · rw [hm]; exact removeTypingIndicator_sublist _
  · intro hr
    simp [step, sendMessageResult, hr]

theorem sendMessageResult_clears_typing_unless_ok_witness :
    Reachable keepUpper awaitingReply ∧ Enabled awaitingReply (.sendResponse "error") ∧
    (sendMessageResult "error" awaitingReply).isTyping = false ∧
    indicatorCount (sendMessageResult "error" awaitingReply).messages = 0 ∧
    sendMessageResult "ok" awaitingReply = awaitingReply :=
  have hr : Reachable keepUpper awaitingReply :=
    reachable_run _ (Reachable.init (by decide)) (by decide)
  ⟨hr, by decide,
    ((sendMessageResult_clears_typing_unless_ok keepUpper awaitingReply "error" hr (by decide)).1
      (by decide)).1,
    ((sendMessageResult_clears_typing_unless_ok keepUpper awaitingReply "error" hr (by decide)).1
      (by decide)).2.2.1,
    ((sendMessageResult_clears_typing_unless_ok keepUpper awaitingReply "ok" hr
      (by decide)).2.1 rfl).1⟩

/-! ## Closing and reopening while a reply is awaited -/

theorem isTyping_step_of_not_clears (up : Char → List Char) (e : Event) {s : State}
    (ht : s.isTyping = true) (hc : e.clearsTyping = false) :
    (step up s e).isTyping = true := by
  have hsend : ∀ u : State, u.isTyping = true → (sendMessage u).isTyping = true := by
    intro u hu
    simp [sendMessage, hu]
  cases e with
  | message data =>
    have ha : ¬ data.action = "receiveMessage" := by simpa [Event.clearsTyping] using hc
    simp only [step, onMessage, ha, if_false]
    split
    · exact ht
    · split
      · exact ht
      · exact ht
  | typeInput text => exact ht
  | clickSend => exact hsend s ht
  | clickEnd => exact ht
  | clickClose => exact ht
  | inputKeypress key shiftKey =>
    simp only [step, onInputKeypress]
    split
    · exact hsend s ht
    · exact ht
  | keydown key =>
    simp only [step, onKeydown]
    split
    · split
      · exact ht
      · dsimp only
        split
        · exact ht
        · exact ht
    · exact ht
  | focusChange onInput => exact ht
  | focusTimer => exact ht
  | sendResponse result =>
    have hr : result = "ok" := by simpa [Event.clearsTyping] using hc
    simp [step, sendMessageResult, hr, ht]

theorem isTyping_run_of_not_clears (up : Char → List Char) (es : List Event) {s : State}
    (ht : s.isTyping = true) (hc : ∀ e ∈ es, e.clearsTyping = false) :
    (run up s es).isTyping = true := by
  induction es generalizing s with
  | nil => exact ht
  | cons e es ih =>
    exact ih (isTyping_step_of_not_clears up e ht (hc e (List.mem_cons_self _ _)))
      (fun e' he' => hc e' (List.mem_cons_of_mem _ he'))

/-- C10: `closeConversation`, `endConversation` and `openConversation` leave
`isTyping` as it is.  From a state with `isTyping` true, after
`closeConversation` and `openConversation(n, r)` it is still true, and it stays
true through any events that are neither a `receiveMessage` notification nor a
send response other than `ok`; all that time `sendMessage`, whatever the text
of the field, returns the state unchanged (no bubble, no request).  Either of
those two events sets `isTyping` to false. -/
theorem isTyping_survives_close_and_open (up : Char → List Char) (s : State)
    (n r : String) :
    (closeConversation s).isTyping = s.isTyping ∧
    (endConversation s).isTyping = s.isTyping ∧
    (openConversation up n r s).isTyping = s.isTyping ∧
    (s.isTyping = true →
      (openConversation up n r (closeConversation s)).isTyping = true ∧
      (∀ es : List Event, (∀ e ∈ es, e.clearsTyping = false) →
        (run up (openConversation up n r (closeConversation s)) es).isTyping = true ∧
        ∀ text : String,
          sendMessage { run up (openConversation up n r (closeConversation s)) es with
              inputValue := text } =
            { run up (openConversation up n r (closeConversation s)) es with
              inputValue := text })) ∧
    (∀ (u : State) (e : Event), e.clearsTyping = true → (step up u e).isTyping = false) := by
  refine ⟨rfl, rfl, rfl, fun ht => ⟨ht, fun es hes => ?_⟩, ?_⟩
  · have hrun := isTyping_run_of_not_clears up es
      (show (openConversation up n r (closeConversation s)).isTyping = true from ht) hes
    refine ⟨hrun, fun text => ?_⟩
    simp [sendMessage, hrun]
  · intro u e hc
    cases e with
    | message data =>
      have ha : data.action = "receiveMessage" := by simpa [Event.clearsTyping] using hc
      simp [step, onMessage, ha, receiveMessage, addMessage, setTyping]
    | sendResponse result =>
      have hr : ¬ result = "ok" := by simpa [Event.clearsTyping] using hc
      simp [step, sendMessageResult, hr, setTyping]
    | _ => simp [Event.clearsTyping] at hc

theorem isTyping_survives_close_and_open_witness :
    awaitingReply.isTyping = true ∧
    (run keepUpper
      (openConversation keepUpper "Alice" "bar_tender" (closeConversation awaitingReply))
      [.sendResponse "ok", .clickSend]).isTyping = true ∧
    sendMessage { run keepUpper
        (openConversation keepUpper "Alice" "bar_tender" (closeConversation awaitingReply))
        [.sendResponse "ok", .clickSend] with inputValue := "anyone there?" } =
      { run keepUpper
        (openConversation keepUpper "Alice" "bar_tender" (closeConversation awaitingReply))
        [.sendResponse "ok", .clickSend] with inputValue := "anyone there?" } ∧
    (step keepUpper awaitingReply (receiveEvent "Hi there" "Bob")).isTyping = false :=
  ⟨by decide,
    (((isTyping_survives_close_and_open keepUpper awaitingReply "Alice" "bar_tender").2.2.2.1
      (by decide)).2 [.sendResponse "ok", .clickSend] (by decide)).1,
    (((isTyping_survives_close_and_open keepUpper awaitingReply "Alice" "bar_tender").2.2.2.1
      (by decide)).2 [.sendResponse "ok", .clickSend] (by decide)).2 "anyone there?",
    (isTyping_survives_close_and_open keepUpper awaitingReply "Alice" "bar_tender").2.2.2.2
      awaitingReply (receiveEvent "Hi there" "Bob") (by decide)⟩

end AiNpcs
